import Mathlib

/-!
# Verification of the payment-gated invocation pipeline

Shallow embedding of the payment core of the `rest-mcp-backend` repository:
the balance ledger (`balanceRepository`), the payment repository
(`paymentRepository`), the payment gate (`EndpointManager.checkPaymentRequired`
and `EndpointManager.callApiEndpoint`), the settlement flow
(`PaymentTools.executeApprovePayment`), and the deposit verifier
(`BaseTransactionService.verifyPayment` / `paymentController.creditDeposit`).

Amount handling: the source stores amounts as decimal strings in the database
but combines them with JavaScript `parseFloat` / `+` / `-` — that is, IEEE-754
binary64 arithmetic.  We model a decimal string by its exact rational value
(type `Frac`, an unnormalized fraction of integers, kept kernel-computable),
and `parseFloat` by `roundDouble`, correct rounding to the nearest binary64
value (53-bit significand, round-to-nearest ties-to-even; the finite exponent
range of binary64 is not modelled, which is faithful for all magnitudes
occurring here).  JavaScript stringification of a double produces the shortest
decimal that re-parses to the same double, so a stored-then-reparsed value is
the double itself; the model therefore tracks the double values that the code
computes.
-/

/-- An unnormalized fraction `num / den` of integers.  Used instead of `ℚ`
so that every arithmetic step reduces in the kernel (no gcd normalization);
all fractions built by the model have a positive denominator. -/
structure Frac where
  num : Int
  den : Int
deriving DecidableEq

namespace Frac

/-- The exact rational value of a fraction. -/
def toRat (f : Frac) : ℚ := (f.num : ℚ) / (f.den : ℚ)

/-- A structurally sane fraction: positive denominator. -/
def WF (f : Frac) : Prop := 0 < f.den

/-- Zero. -/
def zero : Frac := ⟨0, 1⟩

/-- Exact addition. -/
def add (a b : Frac) : Frac := ⟨a.num * b.den + b.num * a.den, a.den * b.den⟩

/-- Exact subtraction. -/
def sub (a b : Frac) : Frac := ⟨a.num * b.den - b.num * a.den, a.den * b.den⟩

/-- Exact strict comparison (valid when both denominators are positive). -/
def blt (a b : Frac) : Bool := a.num * b.den < b.num * a.den

/-- Exact non-strict comparison (valid when both denominators are positive). -/
def ble (a b : Frac) : Bool := a.num * b.den ≤ b.num * a.den

/-- Multiply a fraction by `2^e` for an integer exponent `e`. -/
def mulPow2 (f : Frac) (e : Int) : Frac :=
  if 0 ≤ e then ⟨f.num * 2 ^ e.toNat, f.den⟩ else ⟨f.num, f.den * 2 ^ (-e).toNat⟩

/-- Value equality by cross multiplication (valid when both denominators are
positive); computable, unlike equality of the associated rationals. -/
def equiv (a b : Frac) : Bool := a.num * b.den == b.num * a.den

end Frac

/-- Round a positive fraction to the nearest integer, ties to even
(the rounding used for an IEEE-754 significand). -/
def rndHalfEven (f : Frac) : Int :=
  let n := Int.fdiv f.num f.den
  let r := f.num - n * f.den
  if 2 * r < f.den then n
  else if f.den < 2 * r then n + 1
  else if n % 2 = 0 then n else n + 1

/-- Candidate binary exponents searched when locating the binade of a
positive rational; the range covers every magnitude used in this model. -/
def expRange : List Int := (List.range 201).map (fun i => (i : Int) - 100)

/-- Is `2^e ≤ f < 2^(e+1)` (for `f` with positive denominator)? -/
def inBinade (f : Frac) (e : Int) : Bool :=
  Frac.ble (Frac.mulPow2 ⟨1, 1⟩ e) f && Frac.blt f (Frac.mulPow2 ⟨1, 1⟩ (e + 1))

/-- The binade exponent of a positive fraction: the `e` with `2^e ≤ f < 2^(e+1)`. -/
def findExp (f : Frac) : Int := (expRange.find? (inBinade f)).getD 0

/-- Round a fraction that is `≤ 0` to `0`, and a positive fraction to the
nearest binary64 value: scale into the 53-bit significand range, round the
significand half-to-even, and scale back. -/
def roundPos (f : Frac) : Frac :=
  if f.num ≤ 0 then Frac.zero
  else
    let e := findExp f
    Frac.mulPow2 ⟨rndHalfEven (Frac.mulPow2 f (52 - e)), 1⟩ (e - 52)

/-- Round a fraction to the nearest binary64 value (round-to-nearest,
ties-to-even, unbounded exponent range). -/
def roundDouble (f : Frac) : Frac :=
  if f.num < 0 then
    let r := roundPos ⟨-f.num, f.den⟩
    ⟨-r.num, r.den⟩
  else roundPos f

/-- JavaScript `parseFloat` of a decimal string, the string being modelled by
its exact rational value: correct rounding to binary64. -/
def parseFloat (f : Frac) : Frac := roundDouble f

/-- JavaScript `+` on two doubles (exact sum, then rounding). -/
def jsAdd (a b : Frac) : Frac := roundDouble (Frac.add a b)

/-- JavaScript `-` on two doubles (exact difference, then rounding). -/
def jsSub (a b : Frac) : Frac := roundDouble (Frac.sub a b)

namespace Frac

instance : DecidablePred Frac.WF := fun f =>
  decidable_of_iff (0 < f.den) Iff.rfl

/-- A nonnegative, structurally sane amount. -/
def Good (f : Frac) : Prop := f.WF ∧ 0 ≤ f.num

instance : DecidablePred Frac.Good := fun f =>
  decidable_of_iff (f.WF ∧ 0 ≤ f.num) Iff.rfl

end Frac

/-!
## The balance ledger (`src/services/balanceRepository.ts`)

A `UserBalance` row stores three decimal strings; the two mutators re-parse
them with `parseFloat`, combine them with JavaScript float arithmetic, and
store the result back.  The model keeps the double values that the stored
strings denote.
-/

/-- `user_balances` row (`payment.types.ts` `UserBalance`), amounts only. -/
structure UserBalance where
  balance_eth : Frac
  total_deposited_eth : Frac
  total_spent_eth : Frac
deriving DecidableEq

/-- The lazily created zero balance inserted by `getOrCreateBalance`. -/
def zeroUserBalance : UserBalance := ⟨Frac.zero, Frac.zero, Frac.zero⟩

/-- `balanceRepository.addDeposit`: `newBalance = parseFloat(balance.balance_eth)
+ parseFloat(amountEth)`, `newTotalDeposited` likewise; `total_spent_eth` kept. -/
def addDeposit (bal : UserBalance) (amountEth : Frac) : UserBalance :=
  { balance_eth := jsAdd (parseFloat bal.balance_eth) (parseFloat amountEth)
    total_deposited_eth := jsAdd (parseFloat bal.total_deposited_eth) (parseFloat amountEth)
    total_spent_eth := bal.total_spent_eth }

/-- `balanceRepository.deductPayment`: compares `parseFloat` values, throws on
insufficient balance (modelled by `none`), otherwise stores the float
difference and adds the float amount to `total_spent_eth`. -/
def deductPayment (bal : UserBalance) (amountEth : Frac) : Option UserBalance :=
  let currentBalance := parseFloat bal.balance_eth
  let paymentAmount := parseFloat amountEth
  if Frac.blt currentBalance paymentAmount then none
  else some
    { balance_eth := jsSub currentBalance paymentAmount
      total_deposited_eth := bal.total_deposited_eth
      total_spent_eth := jsAdd (parseFloat bal.total_spent_eth) paymentAmount }

/-- One ledger operation on a principal: a credit (`addDeposit`) or a debit
(`deductPayment`). -/
inductive LedgerOp where
  | credit (amountEth : Frac)
  | debit (amountEth : Frac)
deriving DecidableEq

/-- The amount carried by a ledger operation. -/
def LedgerOp.amountEth : LedgerOp → Frac
  | .credit a => a
  | .debit a => a

/-- Run one ledger operation; a failed debit (thrown `Insufficient balance`)
leaves the row unchanged. -/
def applyLedgerOp (bal : UserBalance) : LedgerOp → UserBalance
  | .credit a => addDeposit bal a
  | .debit a => (deductPayment bal a).getD bal

/-- Run a sequence of ledger operations from the lazily created zero balance. -/
def runLedger (ops : List LedgerOp) : UserBalance :=
  ops.foldl applyLedgerOp zeroUserBalance

/-- All three stored amounts are nonnegative and structurally sane. -/
def GoodBalance (u : UserBalance) : Prop :=
  u.balance_eth.Good ∧ u.total_deposited_eth.Good ∧ u.total_spent_eth.Good

/-!
## The payment store (`src/services/paymentRepository.ts`) and its state

Persistent rows live in Supabase; the model keeps them in lists inside a
`PayState`.  `generatePaymentId` draws a random id; the model draws ids from a
counter, which preserves exactly the property the code relies on (freshness).
Timestamp columns (`created_at`, `submitted_at`, `completed_at`) are not
modelled; no claim depends on them.
-/

/-- `payment.types.ts` `PaymentStatus`. -/
inductive PaymentStatus where
  | pending
  | processing
  | completed
  | failed
  | expired
deriving DecidableEq

/-- `payment.types.ts` `PaymentTransaction` (timestamps omitted). -/
structure PaymentTransaction where
  payment_id : Nat
  user_id : String
  endpoint_id : String
  from_wallet : String
  to_wallet : String
  amount_eth : Frac
  status : PaymentStatus
  blockchain_tx_hash : Option String
  error_message : Option String
deriving DecidableEq

/-- The persistent store: payment transactions, user balances, and the id
counter modelling `generatePaymentId` freshness. -/
structure PayState where
  payments : List PaymentTransaction
  balances : List (String × UserBalance)
  nextId : Nat
deriving DecidableEq

/-- The store before any deposit or payment. -/
def emptyPayState : PayState := ⟨[], [], 0⟩

/-- `paymentRepository.getPaymentByPaymentId`. -/
def getPaymentByPaymentId (st : PayState) (paymentId : Nat) :
    Option PaymentTransaction :=
  st.payments.find? (fun t => t.payment_id == paymentId)

/-- `balanceRepository.getBalanceByUserId`. -/
def getBalanceByUserId (st : PayState) (userId : String) : Option UserBalance :=
  (st.balances.find? (fun p => p.1 == userId)).map (fun p => p.2)

/-- `balanceRepository.getOrCreateBalance`: return the existing row or insert
a zero row. -/
def getOrCreateBalance (st : PayState) (userId : String) :
    UserBalance × PayState :=
  match getBalanceByUserId st userId with
  | some b => (b, st)
  | none =>
    (zeroUserBalance, { st with balances := (userId, zeroUserBalance) :: st.balances })

/-- Update the balance row of `userId` (the SQL `update ... eq(user_id)`). -/
def setBalance (st : PayState) (userId : String) (bal : UserBalance) : PayState :=
  { st with balances := st.balances.map (fun p => if p.1 == userId then (p.1, bal) else p) }

/-- `balanceRepository.addDeposit` at store level: `getOrCreateBalance`, float
arithmetic, write back. -/
def addDepositS (st : PayState) (userId : String) (amountEth : Frac) : PayState :=
  let r := getOrCreateBalance st userId
  setBalance r.2 userId (addDeposit r.1 amountEth)

/-- `balanceRepository.deductPayment` at store level; `none` models the thrown
`Balance not found` / `Insufficient balance` errors. -/
def deductPaymentS (st : PayState) (userId : String) (amountEth : Frac) :
    Option PayState :=
  match getBalanceByUserId st userId with
  | none => none
  | some bal =>
    match deductPayment bal amountEth with
    | none => none
    | some newBal => some (setBalance st userId newBal)

/-- The partial update accepted by `paymentRepository.updatePaymentTransaction`
(only the fields a claim depends on). -/
structure PaymentUpdate where
  status : Option PaymentStatus
  blockchain_tx_hash : Option String
  error_message : Option String
deriving DecidableEq

/-- Apply the provided fields of a partial update to a row. -/
def applyPaymentUpdate (u : PaymentUpdate) (t : PaymentTransaction) :
    PaymentTransaction :=
  { t with
    status := u.status.getD t.status
    blockchain_tx_hash :=
      match u.blockchain_tx_hash with
      | some h => some h
      | none => t.blockchain_tx_hash
    error_message :=
      match u.error_message with
      | some m => some m
      | none => t.error_message }

/-- `paymentRepository.updatePaymentTransaction`: update the row with the
matching `payment_id`; `none` models the thrown `Payment not found`. -/
def updatePaymentTransaction (st : PayState) (paymentId : Nat)
    (u : PaymentUpdate) : Option PayState :=
  match getPaymentByPaymentId st paymentId with
  | none => none
  | some _ =>
    some { st with
      payments := st.payments.map
        (fun t => if t.payment_id == paymentId then applyPaymentUpdate u t else t) }

/-- `paymentRepository.markPaymentFailed`. -/
def markPaymentFailed (st : PayState) (paymentId : Nat) (errorMessage : String) :
    Option PayState :=
  updatePaymentTransaction st paymentId ⟨some PaymentStatus.failed, none, some errorMessage⟩

/-- `paymentRepository.createPaymentTransaction`: insert a fresh PENDING row. -/
def createPaymentTransaction (st : PayState)
    (userId endpointId platformWallet developerWallet : String)
    (amountEth : Frac) : PaymentTransaction × PayState :=
  let tx : PaymentTransaction :=
    ⟨st.nextId, userId, endpointId, platformWallet, developerWallet, amountEth,
      PaymentStatus.pending, none, none⟩
  (tx, { st with payments := st.payments ++ [tx], nextId := st.nextId + 1 })

/-- `payment.types.ts` `EndpointPricing` (ids and timestamps omitted). -/
structure EndpointPricing where
  price_per_call_eth : Frac
  developer_wallet_address : String
deriving DecidableEq

/-- `paymentController.PLATFORM_WALLET_ADDRESS` (environment configuration,
modelled as a fixed address). -/
def PLATFORM_WALLET_ADDRESS : String := "0xplatform"

/-!
## The payment gate (`src/mcp/EndpointManager.ts`)
-/

/-- The `payment_details` object of a 402 response, restricted to the fields
the claims inspect.  A `none` field is one the corresponding branch of the
source does not set. -/
structure PaymentDetails where
  payment_id : Option Nat
  status : Option PaymentStatus
  amount_eth : Option Frac
  developer_wallet : Option String
  your_balance : Option Frac
  sufficient_balance : Option Bool
deriving DecidableEq

/-- `EndpointManager`s `ApiResponse` (the `data` payload of a passthrough
response is not modelled; `message` abbreviates the source's interpolated
template strings to a fixed text per branch — no claim inspects the
interpolated parts, which repeat fields carried in `payment_details`). -/
structure ApiResponse where
  success : Bool
  status_code : Option Nat
  message : String
  payment_details : Option PaymentDetails
deriving DecidableEq

/-- `EndpointManager.checkPaymentRequired`.  Returns the blocking response (or
`none` for proceed), the updated store, and whether `_payment_id` was removed
from the arguments (the completed-reference branch).  `pricing?` is the result
of `getPricingByEndpointId` for this endpoint. -/
def checkPaymentRequired (pricing? : Option EndpointPricing)
    (endpointId endUserId developerId : String) (suppliedRef : Option Nat)
    (st : PayState) : Option ApiResponse × PayState × Bool :=
  match pricing? with
  | none => (none, st, false)
  | some pricing =>
    if (parseFloat pricing.price_per_call_eth).ble Frac.zero then (none, st, false)
    else
      match suppliedRef with
      | some paymentId =>
        match getPaymentByPaymentId st paymentId with
        | none =>
          (some { success := false, status_code := some 402,
                  message := "Invalid payment_id provided",
                  payment_details := none }, st, false)
        | some payment =>
          if payment.user_id ≠ endUserId then
            (some { success := false, status_code := some 402,
                    message := "Unauthorized: payment_id belongs to another user",
                    payment_details := none }, st, false)
          else if payment.endpoint_id ≠ endpointId then
            (some { success := false, status_code := some 402,
                    message := "payment_id is for a different endpoint",
                    payment_details := none }, st, false)
          else if payment.status = PaymentStatus.completed then
            (none, st, true)
          else
            (some { success := false, status_code := some 402,
                    message := "Payment status is not completed",
                    payment_details := some
                      { payment_id := some paymentId, status := some payment.status,
                        amount_eth := none, developer_wallet := none,
                        your_balance := none, sufficient_balance := none } },
              st, false)
      | none =>
        match getBalanceByUserId st endUserId with
        | none =>
          (some { success := false, status_code := some 402,
                  message := "Payment Required - No balance found for end user",
                  payment_details := some
                    { payment_id := none, status := none,
                      amount_eth := some pricing.price_per_call_eth,
                      developer_wallet := some pricing.developer_wallet_address,
                      your_balance := none, sufficient_balance := none } },
            st, false)
        | some endUserBalance =>
          let currentBalance := parseFloat endUserBalance.balance_eth
          let requiredAmount := parseFloat pricing.price_per_call_eth
          let r := createPaymentTransaction st endUserId endpointId
            PLATFORM_WALLET_ADDRESS pricing.developer_wallet_address
            pricing.price_per_call_eth
          (some { success := false, status_code := some 402,
                  message := "Payment Required",
                  payment_details := some
                    { payment_id := some r.1.payment_id, status := none,
                      amount_eth := some pricing.price_per_call_eth,
                      developer_wallet := some pricing.developer_wallet_address,
                      your_balance := some currentBalance,
                      sufficient_balance := some (requiredAmount.ble currentBalance) } },
            r.2, false)

/-- `api.types.ts` `EndpointParameter`, restricted to name and the
`required !== false` flag. -/
structure EndpointParam where
  name : String
  required : Bool
deriving DecidableEq

/-- `api.types.ts` `APIEndpoint`, restricted to the fields `callApiEndpoint`
consults for the payment decision (`id` is absent for endpoints loaded without
a database row). -/
structure APIEndpoint where
  id : Option String
  name : String
  parameters : List EndpointParam
deriving DecidableEq

/-- The arguments of a tool call: the reserved `_payment_id` argument and the
names of the other supplied arguments. -/
structure ToolArgs where
  paymentId : Option Nat
  keys : List String
deriving DecidableEq

/-- Outcome of `callApiEndpoint`: the outbound HTTP request happens exactly in
the `apiCalled` case. -/
inductive CallOutcome where
  | endpointNotFound
  | gateBlocked (r : ApiResponse)
  | missingParameter (name : String)
  | apiCalled (args : ToolArgs)
deriving DecidableEq

/-- Required-parameter validation followed by the outbound request
(`callApiEndpoint` after the payment check). -/
def validateAndCall (ep : APIEndpoint) (args : ToolArgs) (st : PayState) :
    CallOutcome × PayState :=
  match ep.parameters.find? (fun p => p.required && !(args.keys.contains p.name)) with
  | some p => (CallOutcome.missingParameter p.name, st)
  | none => (CallOutcome.apiCalled args, st)

/-- The body of `callApiEndpoint` once the endpoint is found: the payment
gate is consulted only when the endpoint has a stored id and both principal
ids are present (`endpoint.id && endUserId && developerId`). -/
def callApiEndpointFound (pricings : List (String × EndpointPricing))
    (endpoint : APIEndpoint) (args : ToolArgs)
    (endUserId developerId : Option String) (st : PayState) :
    CallOutcome × PayState :=
  match endpoint.id, endUserId, developerId with
  | some endpointId, some uid, some did =>
    let pricing? := (pricings.find? (fun p => p.1 == endpointId)).map (fun p => p.2)
    match checkPaymentRequired pricing? endpointId uid did args.paymentId st with
    | (some r, st2, _) => (CallOutcome.gateBlocked r, st2)
    | (none, st2, strip) =>
      validateAndCall endpoint (if strip then { args with paymentId := none } else args) st2
  | _, _, _ => validateAndCall endpoint args st

/-- `EndpointManager.callApiEndpoint`: look up the endpoint, consult the
payment gate when possible, then validate parameters and perform the outbound
call.  `pricings` maps endpoint ids to their pricing rows. -/
def callApiEndpoint (endpoints : List APIEndpoint)
    (pricings : List (String × EndpointPricing)) (endpointName : String)
    (args : ToolArgs) (endUserId developerId : Option String) (st : PayState) :
    CallOutcome × PayState :=
  match endpoints.find? (fun e => e.name == endpointName) with
  | none => (CallOutcome.endpointNotFound, st)
  | some endpoint => callApiEndpointFound pricings endpoint args endUserId developerId st

/-!
## Settlement (`src/mcp/PaymentTools.ts` `executeApprovePayment`)

The on-chain transfer plus confirmation wait is abstracted by a
`SettleResult` parameter (success with a transaction hash, or any submission
or confirmation error).  The third component of the result is the trace of
status values written to the referenced transaction, in order.
-/

/-- Outcome of the on-chain transfer and confirmation wait. -/
inductive SettleResult where
  | ok (txHash : String)
  | fail (err : String)
deriving DecidableEq

/-- The value returned (or the error thrown) by `executeApprovePayment`. -/
inductive ApproveOutcome where
  | errorThrown (msg : String)
  | insufficientBalance (required currentBalance : Frac)
  | settled (paymentId : Nat) (txHash : String) (remainingBalance : Frac)
  | settlementFailed (paymentId : Nat) (err : String) (refunded : Bool)
      (refundAmount : Frac)
deriving DecidableEq

/-- The outer catch of `executeApprovePayment`: try to mark the payment FAILED
and ignore any error of the update itself. -/
def tryMarkPaymentFailed (st : PayState) (paymentId : Nat) (msg : String) :
    PayState :=
  match markPaymentFailed st paymentId msg with
  | some st2 => st2
  | none => st

/-- `PaymentTools.executeApprovePayment`.  Status writes go through
`updatePaymentTransaction` / `markPaymentFailed` exactly as in the source:
the outer catch marks the transaction FAILED whenever an error is thrown and a
`payment_id` was supplied, whatever the current status of the transaction.
The `remainingBalance` of a successful settlement is reported by the source
through `toFixed(6)`; the model carries the underlying double instead (no
claim depends on that display rounding). -/
def executeApprovePayment (userId : String) (paymentId? : Option Nat)
    (settle : SettleResult) (st : PayState) :
    ApproveOutcome × PayState × List PaymentStatus :=
  match paymentId? with
  | none => (ApproveOutcome.errorThrown ("payment_id is required"), st, [])
  | some paymentId =>
    match getPaymentByPaymentId st paymentId with
    | none =>
      (ApproveOutcome.errorThrown ("Payment not found"),
        tryMarkPaymentFailed st paymentId ("Payment not found"), [])
    | some payment =>
      if payment.user_id ≠ userId then
        (ApproveOutcome.errorThrown ("Unauthorized: This payment belongs to another user"),
          tryMarkPaymentFailed st paymentId
            ("Unauthorized: This payment belongs to another user"),
          [PaymentStatus.failed])
      else if payment.status ≠ PaymentStatus.pending then
        (ApproveOutcome.errorThrown ("Payment cannot be processed"),
          tryMarkPaymentFailed st paymentId ("Payment cannot be processed"),
          [PaymentStatus.failed])
      else
        let r := getOrCreateBalance st userId
        let currentBalance := parseFloat r.1.balance_eth
        let paymentAmount := parseFloat payment.amount_eth
        if currentBalance.blt paymentAmount then
          (ApproveOutcome.insufficientBalance paymentAmount currentBalance, r.2, [])
        else
          match deductPaymentS r.2 userId payment.amount_eth with
          | none =>
            (ApproveOutcome.errorThrown ("Insufficient balance"),
              tryMarkPaymentFailed r.2 paymentId ("Insufficient balance"),
              [PaymentStatus.failed])
          | some st2 =>
            match updatePaymentTransaction st2 paymentId
                ⟨some PaymentStatus.processing, none, none⟩ with
            | none =>
              (ApproveOutcome.errorThrown ("Payment not found"), st2, [])
            | some st3 =>
              match settle with
              | SettleResult.ok txHash =>
                match updatePaymentTransaction st3 paymentId
                    ⟨some PaymentStatus.completed, some txHash, none⟩ with
                | none =>
                  (ApproveOutcome.errorThrown ("Payment not found"), st3,
                    [PaymentStatus.processing])
                | some st4 =>
                  (ApproveOutcome.settled paymentId txHash
                      (jsSub currentBalance paymentAmount), st4,
                    [PaymentStatus.processing, PaymentStatus.completed])
              | SettleResult.fail err =>
                let st4 := addDepositS st3 userId payment.amount_eth
                let st5 := tryMarkPaymentFailed st4 paymentId
                  ("Blockchain transaction failed: " ++ err)
                (ApproveOutcome.settlementFailed paymentId err true payment.amount_eth,
                  st5, [PaymentStatus.processing, PaymentStatus.failed])

/-!
## Deposit verification (`BaseTransactionService.verifyPayment` and
`paymentController.creditDeposit`)
-/

/-- An on-chain transaction as seen through `viem`: recipient, transferred
value in wei, and receipt status.  Presence in the chain list means a receipt
exists (the transaction is mined). -/
structure ChainTx where
  to_addr : String
  valueWei : Int
  receiptSuccess : Bool
deriving DecidableEq

/-- `BaseWalletService.getTransactionReceipt` (`none` models the throw when
the transaction is unknown). -/
def getTransactionReceipt (chain : List (String × ChainTx)) (txHash : String) :
    Option ChainTx :=
  (chain.find? (fun p => p.1 == txHash)).map (fun p => p.2)

/-- `BaseWalletService.isTransactionConfirmed`: receipt exists and its status
is success; any error yields `false`. -/
def isTransactionConfirmed (chain : List (String × ChainTx)) (txHash : String) :
    Bool :=
  match getTransactionReceipt chain txHash with
  | some receipt => receipt.receiptSuccess
  | none => false

/-- `BaseWalletService.parseEthToWei` = `viem` `parseEther`: exact decimal
scaling by `10^18` (exact for every decimal-string amount, whose denominator
divides `10^18`). -/
def parseEthToWei (f : Frac) : Int := f.num * 10 ^ 18 / f.den

/-- `BaseTransactionService`s `PaymentVerificationResult`, restricted to the
fields the claims inspect. -/
structure PaymentVerificationResult where
  isValid : Bool
  errorMessage : Option String
deriving DecidableEq

/-- `BaseTransactionService.verifyPayment`: a pure read of the chain; checks
confirmation, receipt status, recipient, and transferred value (wei compared
as exact integers).  Address lowercasing is not modelled: addresses are
compared as given.  The optional expected-sender check is not exercised by
`creditDeposit` and is omitted. -/
def verifyPayment (chain : List (String × ChainTx)) (txHash : String)
    (expectedAmount : Frac) (expectedRecipient : String) :
    PaymentVerificationResult :=
  if isTransactionConfirmed chain txHash = false then
    ⟨false, some ("Transaction not confirmed yet")⟩
  else
    match getTransactionReceipt chain txHash with
    | none => ⟨false, some ("Transaction not confirmed yet")⟩
    | some tx =>
      if tx.receiptSuccess = false then
        ⟨false, some ("Transaction failed on-chain")⟩
      else if tx.to_addr ≠ expectedRecipient then
        ⟨false, some ("Wrong recipient")⟩
      else if tx.valueWei < parseEthToWei expectedAmount then
        ⟨false, some ("Insufficient payment")⟩
      else ⟨true, none⟩

/-- Result of the `creditDeposit` management route. -/
inductive DepositResult where
  | verificationFailed (msg : Option String)
  | credited
deriving DecidableEq

/-- `paymentController.creditDeposit`: verify the submitted receipt against
the platform wallet and the claimed amount; credit the ledger only on
successful verification. -/
def creditDeposit (chain : List (String × ChainTx)) (userId : String)
    (txHash : String) (amountEth : Frac) (st : PayState) :
    DepositResult × PayState :=
  let verification := verifyPayment chain txHash amountEth PLATFORM_WALLET_ADDRESS
  if verification.isValid = false then
    (DepositResult.verificationFailed verification.errorMessage, st)
  else
    (DepositResult.credited, addDepositS st userId amountEth)

/-- The store after the SQL row update of `updatePaymentTransaction`. -/
def updatedTxState (st : PayState) (pid : Nat) (upd : PaymentUpdate) : PayState :=
  { st with
    payments := st.payments.map
      (fun x => if x.payment_id == pid then applyPaymentUpdate upd x else x) }

/-!
## Concrete scenarios (used by counterexamples and witnesses)

All states are reached from the empty store through the model operations
themselves: a deposit credit, a gate check creating a PENDING transaction, and
an approval.
-/

/-- The number of non-terminal (PENDING or PROCESSING) transactions of a
(payer, tool) pair. -/
def nonTerminalCount (st : PayState) (userId endpointId : String) : Nat :=
  (st.payments.filter (fun t => t.user_id == userId && t.endpoint_id == endpointId &&
    (t.status == PaymentStatus.pending || t.status == PaymentStatus.processing))).length

/-- The stored balance amount of a principal (zero row if absent). -/
def balanceEthOf (st : PayState) (userId : String) : Frac :=
  ((getBalanceByUserId st userId).getD zeroUserBalance).balance_eth

/-- Pricing row: price `0.03` ETH per call, payee wallet `0xdev`. -/
def pricing003 : EndpointPricing := ⟨⟨3, 100⟩, "0xdev"⟩

/-- Store after the payer deposits `0.3` ETH. -/
def stDeposit03 : PayState := addDepositS emptyPayState ("alice") ⟨3, 10⟩

/-- Gate consultation with no reference: creates PENDING transaction 0. -/
def gate003 : Option ApiResponse × PayState × Bool :=
  checkPaymentRequired (some pricing003) ("ep1") "alice" "dev" none stDeposit03

/-- Store holding the PENDING transaction 0 for (alice, ep1). -/
def stPending003 : PayState := gate003.2.1

/-- Approval of transaction 0 whose settlement fails after the debit. -/
def approveFail003 : ApproveOutcome × PayState × List PaymentStatus :=
  executeApprovePayment ("alice") (some 0) (SettleResult.fail ("execution reverted"))
    stPending003

/-- Approval of transaction 0 with confirmed settlement. -/
def approveOk003 : ApproveOutcome × PayState × List PaymentStatus :=
  executeApprovePayment ("alice") (some 0) (SettleResult.ok ("0xhash")) stPending003

/-- Store holding the COMPLETED transaction 0. -/
def stCompleted003 : PayState := approveOk003.2.1

/-- A second approval of the already COMPLETED transaction 0. -/
def approveAgain003 : ApproveOutcome × PayState × List PaymentStatus :=
  executeApprovePayment ("alice") (some 0) (SettleResult.ok ("0xhash2")) stCompleted003

/-- A parameterless priced endpoint with stored id `ep1`. -/
def weatherEndpoint : APIEndpoint := ⟨some ("ep1"), "get_weather", []⟩

/-- First invocation supplying the COMPLETED reference 0. -/
def invokeOnce003 : CallOutcome × PayState :=
  callApiEndpoint [weatherEndpoint] [("ep1", pricing003)] ("get_weather")
    ⟨some 0, []⟩ (some ("alice")) (some ("dev")) stCompleted003

/-- Second invocation supplying the same COMPLETED reference 0. -/
def invokeTwice003 : CallOutcome × PayState :=
  callApiEndpoint [weatherEndpoint] [("ep1", pricing003)] ("get_weather")
    ⟨some 0, []⟩ (some ("alice")) (some ("dev")) invokeOnce003.2

/-- Second gate consultation with no reference while transaction 0 is still
PENDING. -/
def gateRepeat003 : Option ApiResponse × PayState × Bool :=
  checkPaymentRequired (some pricing003) ("ep1") "alice" "dev" none stPending003

/-- Gate consultation by a principal with no balance row. -/
def gateNoBalance : Option ApiResponse × PayState × Bool :=
  checkPaymentRequired (some pricing003) ("ep1") "bob" "dev" none emptyPayState

namespace Frac

theorem toRat_zero : Frac.zero.toRat = 0 := by
  simp [toRat, zero]

theorem den_cast_pos (f : Frac) (hf : f.WF) : (0 : ℚ) < (f.den : ℚ) := by
  exact_mod_cast hf

theorem toRat_add (a b : Frac) (ha : a.WF) (hb : b.WF) :
    (a.add b).toRat = a.toRat + b.toRat := by
  have ha' := (den_cast_pos a ha).ne'
  have hb' := (den_cast_pos b hb).ne'
  simp only [toRat, add]
  push_cast
  field_simp

theorem toRat_sub (a b : Frac) (ha : a.WF) (hb : b.WF) :
    (a.sub b).toRat = a.toRat - b.toRat := by
  have ha' := (den_cast_pos a ha).ne'
  have hb' := (den_cast_pos b hb).ne'
  simp only [toRat, sub]
  push_cast
  field_simp
  ring

theorem ble_iff (a b : Frac) (ha : a.WF) (hb : b.WF) :
    a.ble b = true ↔ a.toRat ≤ b.toRat := by
  simp only [ble, toRat, decide_eq_true_eq]
  rw [div_le_div_iff₀ (den_cast_pos a ha) (den_cast_pos b hb)]
  exact_mod_cast Iff.rfl

theorem blt_iff (a b : Frac) (ha : a.WF) (hb : b.WF) :
    a.blt b = true ↔ a.toRat < b.toRat := by
  simp only [blt, toRat, decide_eq_true_eq]
  rw [div_lt_div_iff₀ (den_cast_pos a ha) (den_cast_pos b hb)]
  exact_mod_cast Iff.rfl

theorem equiv_iff (a b : Frac) (ha : a.WF) (hb : b.WF) :
    a.equiv b = true ↔ a.toRat = b.toRat := by
  simp only [equiv, beq_iff_eq, toRat]
  rw [div_eq_div_iff (den_cast_pos a ha).ne' (den_cast_pos b hb).ne']
  exact_mod_cast Iff.rfl

theorem toRat_nonneg (f : Frac) (hf : f.Good) : 0 ≤ f.toRat :=
  div_nonneg (by exact_mod_cast hf.2) (le_of_lt (den_cast_pos f hf.1))

theorem zero_good : Frac.zero.Good := ⟨by norm_num [WF, zero], by norm_num [zero]⟩

theorem add_good (a b : Frac) (ha : a.Good) (hb : b.Good) : (a.add b).Good := by
  refine ⟨mul_pos ha.1 hb.1, ?_⟩
  have h1 : 0 ≤ a.num * b.den := mul_nonneg ha.2 (le_of_lt hb.1)
  have h2 : 0 ≤ b.num * a.den := mul_nonneg hb.2 (le_of_lt ha.1)
  simpa [add] using add_nonneg h1 h2

theorem sub_good (a b : Frac) (ha : a.Good) (hb : b.Good)
    (h : a.blt b = false) : (a.sub b).Good := by
  refine ⟨mul_pos ha.1 hb.1, ?_⟩
  have h' : ¬ a.num * b.den < b.num * a.den := by
    simpa [blt] using h
  simpa [sub] using sub_nonneg.mpr (le_of_not_lt h')


end Frac

theorem rndHalfEven_nonneg (f : Frac) (hd : 0 < f.den) (hn : 0 ≤ f.num) :
    0 ≤ rndHalfEven f := by
  have h := Int.fdiv_nonneg hn (le_of_lt hd)
  unfold rndHalfEven
  dsimp only
  split
  · exact h
  · split
    · omega
    · split
      · exact h
      · omega

theorem mulPow2_good (f : Frac) (e : Int) (hf : f.Good) : (f.mulPow2 e).Good := by
  unfold Frac.mulPow2
  rcases hf with ⟨hd, hn⟩
  split
  · exact ⟨hd, mul_nonneg hn (by positivity)⟩
  · exact ⟨mul_pos hd (by positivity), hn⟩

theorem roundPos_good (f : Frac) (hf : f.WF) : (roundPos f).Good := by
  unfold roundPos
  split
  · exact Frac.zero_good
  · next h =>
    apply mulPow2_good
    refine ⟨by norm_num [Frac.WF], ?_⟩
    have hg : (f.mulPow2 (52 - findExp f)).Good :=
      mulPow2_good f _ ⟨hf, by omega⟩
    exact rndHalfEven_nonneg _ hg.1 hg.2

theorem roundDouble_good (f : Frac) (hf : f.WF) (hn : 0 ≤ f.num) :
    (roundDouble f).Good := by
  unfold roundDouble
  split
  · omega
  · exact roundPos_good f hf

theorem parseFloat_good (f : Frac) (hf : f.Good) : (parseFloat f).Good :=
  roundDouble_good f hf.1 hf.2

theorem jsAdd_good (a b : Frac) (ha : a.Good) (hb : b.Good) : (jsAdd a b).Good :=
  roundDouble_good _ (Frac.add_good a b ha hb).1 (Frac.add_good a b ha hb).2

theorem jsSub_good (a b : Frac) (ha : a.Good) (hb : b.Good)
    (h : a.blt b = false) : (jsSub a b).Good :=
  roundDouble_good _ (Frac.sub_good a b ha hb h).1 (Frac.sub_good a b ha hb h).2

theorem addDeposit_goodBalance (u : UserBalance) (a : Frac)
    (hu : GoodBalance u) (ha : a.Good) : GoodBalance (addDeposit u a) :=
  ⟨jsAdd_good _ _ (parseFloat_good _ hu.1) (parseFloat_good _ ha),
   jsAdd_good _ _ (parseFloat_good _ hu.2.1) (parseFloat_good _ ha),
   hu.2.2⟩

theorem deductPayment_goodBalance (u u' : UserBalance) (a : Frac)
    (hu : GoodBalance u) (ha : a.Good) (h : deductPayment u a = some u') :
    GoodBalance u' := by
  unfold deductPayment at h
  dsimp only at h
  split at h
  · exact absurd h (by simp)
  · next hge =>
    cases h
    replace hge : (parseFloat u.balance_eth).blt (parseFloat a) = false := by
      simpa using hge
    exact ⟨jsSub_good _ _ (parseFloat_good _ hu.1) (parseFloat_good _ ha) hge,
      hu.2.1,
      jsAdd_good _ _ (parseFloat_good _ hu.2.2) (parseFloat_good _ ha)⟩

theorem applyLedgerOp_goodBalance (u : UserBalance) (op : LedgerOp)
    (hu : GoodBalance u) (ha : op.amountEth.Good) :
    GoodBalance (applyLedgerOp u op) := by
  cases op with
  | credit a => exact addDeposit_goodBalance u a hu ha
  | debit a =>
    unfold applyLedgerOp
    cases hda : deductPayment u a with
    | none => simpa [hda] using hu
    | some u' =>
      simpa [hda] using deductPayment_goodBalance u u' a hu ha hda

theorem zeroUserBalance_goodBalance : GoodBalance zeroUserBalance :=
  ⟨Frac.zero_good, Frac.zero_good, Frac.zero_good⟩

theorem foldl_goodBalance (l : List LedgerOp) :
    ∀ u, GoodBalance u → (∀ op ∈ l, op.amountEth.Good) →
      GoodBalance (l.foldl applyLedgerOp u) := by
  induction l with
  | nil =>
    intro u hu _
    simpa using hu
  | cons op rest ih =>
    intro u hu hl
    simp only [List.foldl_cons]
    exact ih _ (applyLedgerOp_goodBalance u op hu (hl op (by simp)))
      (fun o ho => hl o (by simp [ho]))

theorem runLedger_goodBalance (ops : List LedgerOp)
    (h : ∀ op ∈ ops, op.amountEth.Good) : GoodBalance (runLedger ops) :=
  foldl_goodBalance ops zeroUserBalance zeroUserBalance_goodBalance h

/-!
## Store plumbing lemmas
-/

theorem find_map_keyBal (l : List (String × UserBalance)) (u : String)
    (b : UserBalance) :
    (l.map (fun p => if p.1 == u then (p.1, b) else p)).find? (fun p => p.1 == u) =
      (l.find? (fun p => p.1 == u)).map (fun p => (p.1, b)) := by
  induction l with
  | nil => rfl
  | cons hd tl ih =>
    by_cases h : hd.1 = u
    · simp [- List.find?_map, List.find?_cons, h]
    · simp [- List.find?_map, List.find?_cons, h]
      simpa [- List.find?_map] using ih

theorem getBalance_setBalance_self (st : PayState) (u : String)
    (b bal : UserBalance) (h : getBalanceByUserId st u = some bal) :
    getBalanceByUserId (setBalance st u b) u = some b := by
  unfold getBalanceByUserId setBalance
  unfold getBalanceByUserId at h
  rw [find_map_keyBal]
  cases hf : st.balances.find? (fun p => p.1 == u) with
  | none => rw [hf] at h; simp at h
  | some p => simp

theorem find_map_keyTx (l : List PaymentTransaction) (pid : Nat)
    (f : PaymentTransaction → PaymentTransaction)
    (hf : ∀ t, (f t).payment_id = t.payment_id) :
    (l.map (fun t => if t.payment_id == pid then f t else t)).find?
        (fun t => t.payment_id == pid) =
      (l.find? (fun t => t.payment_id == pid)).map f := by
  induction l with
  | nil => rfl
  | cons hd tl ih =>
    by_cases h : hd.payment_id = pid
    · have h2 : (f hd).payment_id = pid := by rw [hf hd]; exact h
      simp [- List.find?_map, List.find?_cons, h, h2]
    · simp [- List.find?_map, List.find?_cons, h]
      simpa [- List.find?_map] using ih

theorem applyPaymentUpdate_id (u : PaymentUpdate) (t : PaymentTransaction) :
    (applyPaymentUpdate u t).payment_id = t.payment_id := rfl

theorem updatePaymentTransaction_eq (st : PayState) (pid : Nat)
    (upd : PaymentUpdate) (t : PaymentTransaction)
    (h : getPaymentByPaymentId st pid = some t) :
    updatePaymentTransaction st pid upd = some (updatedTxState st pid upd) := by
  unfold updatePaymentTransaction updatedTxState
  rw [h]

theorem getPayment_after_update (st : PayState) (pid : Nat)
    (upd : PaymentUpdate) (t : PaymentTransaction)
    (h : getPaymentByPaymentId st pid = some t) :
    getPaymentByPaymentId (updatedTxState st pid upd) pid =
      some (applyPaymentUpdate upd t) := by
  unfold getPaymentByPaymentId at h ⊢
  unfold updatedTxState
  simp only
  rw [find_map_keyTx _ _ _ (applyPaymentUpdate_id upd), h]
  rfl

theorem updatedTxState_balances (st : PayState) (pid : Nat) (upd : PaymentUpdate) :
    (updatedTxState st pid upd).balances = st.balances := rfl

theorem updatedTxState_nextId (st : PayState) (pid : Nat) (upd : PaymentUpdate) :
    (updatedTxState st pid upd).nextId = st.nextId := rfl

theorem getOrCreateBalance_found (st : PayState) (u : String) :
    getBalanceByUserId (getOrCreateBalance st u).2 u =
      some (getOrCreateBalance st u).1 := by
  unfold getOrCreateBalance
  cases h : getBalanceByUserId st u with
  | some b => simpa using h
  | none =>
    unfold getBalanceByUserId
    simp [List.find?_cons]

theorem setBalance_payments (st : PayState) (u : String) (b : UserBalance) :
    (setBalance st u b).payments = st.payments := rfl

theorem setBalance_nextId (st : PayState) (u : String) (b : UserBalance) :
    (setBalance st u b).nextId = st.nextId := rfl

theorem getOrCreateBalance_payments (st : PayState) (u : String) :
    (getOrCreateBalance st u).2.payments = st.payments := by
  unfold getOrCreateBalance
  cases h : getBalanceByUserId st u <;> simp [h]

theorem addDepositS_payments (st : PayState) (u : String) (a : Frac) :
    (addDepositS st u a).payments = st.payments := by
  unfold addDepositS
  rw [setBalance_payments, getOrCreateBalance_payments]

theorem getPayment_setBalance (st : PayState) (u : String) (b : UserBalance)
    (pid : Nat) :
    getPaymentByPaymentId (setBalance st u b) pid = getPaymentByPaymentId st pid := rfl

theorem getPayment_addDepositS (st : PayState) (u : String) (a : Frac)
    (pid : Nat) :
    getPaymentByPaymentId (addDepositS st u a) pid = getPaymentByPaymentId st pid := by
  unfold getPaymentByPaymentId
  rw [addDepositS_payments]

theorem getBalance_update_payments (st : PayState) (l : List PaymentTransaction)
    (u : String) :
    getBalanceByUserId { st with payments := l } u = getBalanceByUserId st u := rfl

/-!
## Claim theorems
-/

theorem toRat_ne_of_equiv_false (a b : Frac) (ha : a.WF) (hb : b.WF)
    (h : a.equiv b = false) : a.toRat ≠ b.toRat := by
  intro he
  have h2 := (Frac.equiv_iff a b ha hb).mpr he
  rw [h] at h2
  cases h2

/-- C1: after any finite sequence of ledger credits (`addDeposit`) and debits
(`deductPayment`) with nonnegative amounts, starting from the lazily created
zero balance, the current balance is nonnegative.  (This is the half of the
claimed invariant that holds; the exact identity
`current = deposited - spent` fails under the float arithmetic of the source,
see the counterexample.) -/
theorem ledger_invariant_balance_nonneg (ops : List LedgerOp)
    (h : ∀ op ∈ ops, op.amountEth.Good) :
    0 ≤ (runLedger ops).balance_eth.toRat :=
  Frac.toRat_nonneg _ (runLedger_goodBalance ops h).1

set_option maxRecDepth 1000000 in
theorem ledger_invariant_balance_nonneg_witness :
    (∀ op ∈ [LedgerOp.credit ⟨1, 10⟩, LedgerOp.debit ⟨1, 10⟩],
      op.amountEth.Good) ∧
    0 ≤ (runLedger [LedgerOp.credit ⟨1, 10⟩, LedgerOp.debit ⟨1, 10⟩]).balance_eth.toRat :=
  ⟨by decide, ledger_invariant_balance_nonneg _ (by decide)⟩

set_option maxRecDepth 1000000 in
/-- C1 counterexample: after crediting `0.1`, debiting `0.1` and crediting
`0.2`, the stored amounts satisfy `current = 0.2` but
`deposited - spent = 0.30000000000000004 - 0.1`, so the claimed exact identity
`current = deposited - spent` is false (float rounding in `addDeposit`). -/
theorem ledger_current_ne_deposited_minus_spent :
    (runLedger [LedgerOp.credit ⟨1, 10⟩, LedgerOp.debit ⟨1, 10⟩,
        LedgerOp.credit ⟨2, 10⟩]).balance_eth.toRat ≠
      (runLedger [LedgerOp.credit ⟨1, 10⟩, LedgerOp.debit ⟨1, 10⟩,
        LedgerOp.credit ⟨2, 10⟩]).total_deposited_eth.toRat -
      (runLedger [LedgerOp.credit ⟨1, 10⟩, LedgerOp.debit ⟨1, 10⟩,
        LedgerOp.credit ⟨2, 10⟩]).total_spent_eth.toRat := by
  intro h
  have hkey := toRat_ne_of_equiv_false
    (runLedger [LedgerOp.credit ⟨1, 10⟩, LedgerOp.debit ⟨1, 10⟩,
      LedgerOp.credit ⟨2, 10⟩]).balance_eth
    (Frac.sub
      (runLedger [LedgerOp.credit ⟨1, 10⟩, LedgerOp.debit ⟨1, 10⟩,
        LedgerOp.credit ⟨2, 10⟩]).total_deposited_eth
      (runLedger [LedgerOp.credit ⟨1, 10⟩, LedgerOp.debit ⟨1, 10⟩,
        LedgerOp.credit ⟨2, 10⟩]).total_spent_eth)
    (by decide) (by decide) (by decide)
  apply hkey
  rw [Frac.toRat_sub _ _ (by decide) (by decide)]
  exact h

/-- C2 amended: when no reference is supplied, the tool is priced, and the
payer has a balance row, `checkPaymentRequired` unconditionally appends a
fresh PENDING transaction for (payer, tool) — it never consults existing
non-terminal transactions (`getPendingPaymentForEndpoint` is unused), so each
such gate consultation increases the number of non-terminal transactions of
the pair by one and the claimed at-most-one invariant is not enforced. -/
theorem gate_creates_duplicate_pending (pricing : EndpointPricing)
    (eid uid did : String) (st : PayState) (bal : UserBalance)
    (hpriced : (parseFloat pricing.price_per_call_eth).ble Frac.zero = false)
    (hbal : getBalanceByUserId st uid = some bal) :
    (checkPaymentRequired (some pricing) eid uid did none st).2.1.payments =
      st.payments ++ [⟨st.nextId, uid, eid, PLATFORM_WALLET_ADDRESS,
        pricing.developer_wallet_address, pricing.price_per_call_eth,
        PaymentStatus.pending, none, none⟩] ∧
    nonTerminalCount (checkPaymentRequired (some pricing) eid uid did none st).2.1
        uid eid =
      nonTerminalCount st uid eid + 1 := by
  have hst : (checkPaymentRequired (some pricing) eid uid did none st).2.1.payments =
      st.payments ++ [⟨st.nextId, uid, eid, PLATFORM_WALLET_ADDRESS,
        pricing.developer_wallet_address, pricing.price_per_call_eth,
        PaymentStatus.pending, none, none⟩] := by
    simp [checkPaymentRequired, hpriced, hbal, createPaymentTransaction]
  refine ⟨hst, ?_⟩
  unfold nonTerminalCount
  rw [hst, List.filter_append]
  simp

set_option maxRecDepth 1000000 in
theorem gate_creates_duplicate_pending_witness :
    ((parseFloat pricing003.price_per_call_eth).ble Frac.zero = false ∧
      getBalanceByUserId stPending003 ("alice") =
        some (addDeposit zeroUserBalance ⟨3, 10⟩)) ∧
    nonTerminalCount
        (checkPaymentRequired (some pricing003) ("ep1") "alice" "dev" none
          stPending003).2.1 ("alice") "ep1" =
      nonTerminalCount stPending003 ("alice") "ep1" + 1 :=
  ⟨⟨by decide, by decide⟩,
    (gate_creates_duplicate_pending pricing003 ("ep1") "alice" "dev" stPending003
      (addDeposit zeroUserBalance ⟨3, 10⟩) (by decide) (by decide)).2⟩

set_option maxRecDepth 1000000 in
/-- C2 counterexample: starting from a store with a funded balance and no
transactions, two consecutive gate consultations with no supplied reference
leave two PENDING transactions for the same (payer, tool) pair — the claimed
at-most-one non-terminal invariant is violated and no reuse or rejection
happens at creation. -/
theorem gate_two_pending_same_pair :
    nonTerminalCount gateRepeat003.2.1 ("alice") "ep1" = 2 := by
  decide

/-- C6 amended: with no reference supplied and an existing balance row, the
gate creates a new PENDING transaction and returns a payment-required result
(success false, status 402) carrying the new reference, the amount, the payee
wallet, the payer's current balance and the sufficiency flag.  (When the
balance row is absent the gate does not treat it as zero: see the
counterexample.) -/
theorem gate_no_reference_with_balance (pricing : EndpointPricing)
    (eid uid did : String) (st : PayState) (bal : UserBalance)
    (hpriced : (parseFloat pricing.price_per_call_eth).ble Frac.zero = false)
    (hbal : getBalanceByUserId st uid = some bal) :
    (checkPaymentRequired (some pricing) eid uid did none st).1 =
      some ⟨false, some 402, "Payment Required",
        some ⟨some st.nextId, none, some pricing.price_per_call_eth,
          some pricing.developer_wallet_address,
          some (parseFloat bal.balance_eth),
          some ((parseFloat pricing.price_per_call_eth).ble
            (parseFloat bal.balance_eth))⟩⟩ ∧
    (checkPaymentRequired (some pricing) eid uid did none st).2.1.payments =
      st.payments ++ [⟨st.nextId, uid, eid, PLATFORM_WALLET_ADDRESS,
        pricing.developer_wallet_address, pricing.price_per_call_eth,
        PaymentStatus.pending, none, none⟩] := by
  constructor
  · simp [checkPaymentRequired, hpriced, hbal, createPaymentTransaction]
  · simp [checkPaymentRequired, hpriced, hbal, createPaymentTransaction]

set_option maxRecDepth 1000000 in
theorem gate_no_reference_with_balance_witness :
    ((parseFloat pricing003.price_per_call_eth).ble Frac.zero = false ∧
      getBalanceByUserId stDeposit03 ("alice") =
        some (addDeposit zeroUserBalance ⟨3, 10⟩)) ∧
    (checkPaymentRequired (some pricing003) ("ep1") "alice" "dev" none
        stDeposit03).1 =
      some ⟨false, some 402, "Payment Required",
        some ⟨some 0, none, some ⟨3, 100⟩, some ("0xdev"),
          some (parseFloat (addDeposit zeroUserBalance ⟨3, 10⟩).balance_eth),
          some ((parseFloat (Frac.mk 3 100)).ble
            (parseFloat (addDeposit zeroUserBalance ⟨3, 10⟩).balance_eth))⟩⟩ :=
  ⟨⟨by decide, by decide⟩,
    (gate_no_reference_with_balance pricing003 ("ep1") "alice" "dev" stDeposit03
      (addDeposit zeroUserBalance ⟨3, 10⟩) (by decide) (by decide)).1⟩

set_option maxRecDepth 1000000 in
/-- C6 counterexample: when the payer has no balance row, the gate does not
treat the balance as zero: it returns 402 with no reference (`payment_id`
absent from the details) and creates no PENDING transaction (the store is
unchanged), while the claim requires a new PENDING transaction and a result
carrying its reference and the current balance. -/
theorem gate_absent_balance_no_transaction :
    gateNoBalance.2.1 = emptyPayState ∧
    gateNoBalance.1 = some ⟨false, some 402,
      "Payment Required - No balance found for end user",
      some ⟨none, none, some ⟨3, 100⟩, some ("0xdev"), none, none⟩⟩ := by
  decide

/-- C7: `creditDeposit` credits the ledger only when on-chain verification
succeeds: on every verification failure it returns the verifier's error and
leaves the store — in particular every balance — unchanged.  (`verifyPayment`
itself is a pure read of the chain: it takes no store and returns only a
verdict.) -/
theorem creditDeposit_failed_verification_keeps_balance
    (chain : List (String × ChainTx)) (userId txHash : String)
    (amountEth : Frac) (st : PayState)
    (h : (verifyPayment chain txHash amountEth PLATFORM_WALLET_ADDRESS).isValid =
      false) :
    creditDeposit chain userId txHash amountEth st =
      (DepositResult.verificationFailed
        (verifyPayment chain txHash amountEth PLATFORM_WALLET_ADDRESS).errorMessage,
        st) := by
  unfold creditDeposit
  simp [h]

theorem creditDeposit_failed_verification_keeps_balance_witness :
    (verifyPayment [] ("0xtx") ⟨1, 10⟩ PLATFORM_WALLET_ADDRESS).isValid = false ∧
    creditDeposit [] ("alice") "0xtx" ⟨1, 10⟩ stDeposit03 =
      (DepositResult.verificationFailed
        (verifyPayment [] ("0xtx") ⟨1, 10⟩ PLATFORM_WALLET_ADDRESS).errorMessage,
        stDeposit03) :=
  ⟨by decide,
    creditDeposit_failed_verification_keeps_balance [] ("alice") "0xtx" ⟨1, 10⟩
      stDeposit03 (by decide)⟩

/-- C10: when the stored endpoint id, the end-user id or the developer id is
absent, `callApiEndpoint` never consults the payment gate: the call reduces to
parameter validation plus the outbound request, the store is unchanged (no
charge, no PENDING transaction), and no gate-blocked result can be returned. -/
theorem missing_ids_bypass_payment_gate (endpoints : List APIEndpoint)
    (pricings : List (String × EndpointPricing)) (endpointName : String)
    (args : ToolArgs) (endUserId developerId : Option String) (st : PayState)
    (ep : APIEndpoint)
    (hep : endpoints.find? (fun e => e.name == endpointName) = some ep)
    (hmiss : ep.id = none ∨ endUserId = none ∨ developerId = none) :
    callApiEndpoint endpoints pricings endpointName args endUserId developerId st =
      validateAndCall ep args st ∧
    (callApiEndpoint endpoints pricings endpointName args endUserId developerId st).2 =
      st ∧
    ∀ r, (callApiEndpoint endpoints pricings endpointName args endUserId
      developerId st).1 ≠ CallOutcome.gateBlocked r := by
  have hmain : callApiEndpoint endpoints pricings endpointName args endUserId
      developerId st = validateAndCall ep args st := by
    unfold callApiEndpoint
    rw [hep]
    show callApiEndpointFound pricings ep args endUserId developerId st =
      validateAndCall ep args st
    unfold callApiEndpointFound
    rcases hmiss with h | h | h
    · rw [h]
    · rw [h]
      cases ep.id <;> rfl
    · rw [h]
      cases ep.id <;> cases endUserId <;> rfl
  refine ⟨hmain, ?_, ?_⟩
  · rw [hmain]
    unfold validateAndCall
    split <;> rfl
  · intro r
    rw [hmain]
    unfold validateAndCall
    split <;> simp

theorem missing_ids_bypass_payment_gate_witness :
    ([(⟨none, "t1", []⟩ : APIEndpoint)].find? (fun e => e.name == "t1") =
      some ⟨none, "t1", []⟩ ∧
      ((⟨none, "t1", []⟩ : APIEndpoint).id = none ∨
        (some ("alice") : Option String) = none ∨
        (some ("dev") : Option String) = none)) ∧
    (callApiEndpoint [⟨none, "t1", []⟩] [] ("t1") ⟨some 0, []⟩ (some ("alice"))
      (some ("dev")) stPending003).2 = stPending003 :=
  ⟨⟨by decide, Or.inl rfl⟩,
    (missing_ids_bypass_payment_gate [⟨none, "t1", []⟩] [] ("t1") ⟨some 0, []⟩
      (some ("alice")) (some ("dev")) stPending003 ⟨none, "t1", []⟩ (by decide)
      (Or.inl rfl)).2.1⟩

theorem callApi_of_gateBlocked (endpoints : List APIEndpoint)
    (pricings : List (String × EndpointPricing)) (endpointName : String)
    (args : ToolArgs) (uid did : String) (st st2 : PayState)
    (ep : APIEndpoint) (eid : String) (r : ApiResponse)
    (hep : endpoints.find? (fun e => e.name == endpointName) = some ep)
    (hid : ep.id = some eid)
    (hgate : checkPaymentRequired
        ((pricings.find? (fun p => p.1 == eid)).map (fun p => p.2)) eid uid did
        args.paymentId st = (some r, st2, false)) :
    callApiEndpoint endpoints pricings endpointName args (some uid) (some did) st =
      (CallOutcome.gateBlocked r, st2) := by
  unfold callApiEndpoint
  rw [hep]
  show callApiEndpointFound pricings ep args (some uid) (some did) st = _
  unfold callApiEndpointFound
  rw [hid]
  simp only [hgate]

theorem callApi_of_gateProceed (endpoints : List APIEndpoint)
    (pricings : List (String × EndpointPricing)) (endpointName : String)
    (args : ToolArgs) (uid did : String) (st st2 : PayState)
    (ep : APIEndpoint) (eid : String) (strip : Bool)
    (hep : endpoints.find? (fun e => e.name == endpointName) = some ep)
    (hid : ep.id = some eid)
    (hgate : checkPaymentRequired
        ((pricings.find? (fun p => p.1 == eid)).map (fun p => p.2)) eid uid did
        args.paymentId st = (none, st2, strip)) :
    callApiEndpoint endpoints pricings endpointName args (some uid) (some did) st =
      validateAndCall ep (if strip then { args with paymentId := none } else args)
        st2 := by
  unfold callApiEndpoint
  rw [hep]
  show callApiEndpointFound pricings ep args (some uid) (some did) st = _
  unfold callApiEndpointFound
  rw [hid]
  simp only [hgate]

/-- C5: with a priced tool and a supplied reference, the gate blocks the call
with a 402 result and an unchanged store when the referenced transaction does
not exist, belongs to another payer, or belongs to a different tool; and when
the reference exists for this payer and tool with a status other than
COMPLETED, it blocks with a result carrying that status.  In every such case
the returned outcome is `gateBlocked` — the underlying API request is never
performed. -/
theorem gate_supplied_reference_checks (endpoints : List APIEndpoint)
    (pricings : List (String × EndpointPricing)) (endpointName : String)
    (args : ToolArgs) (uid did : String) (st : PayState) (ep : APIEndpoint)
    (eid : String) (pricing : EndpointPricing) (pid : Nat)
    (hep : endpoints.find? (fun e => e.name == endpointName) = some ep)
    (hid : ep.id = some eid)
    (hpr : (pricings.find? (fun p => p.1 == eid)).map (fun p => p.2) = some pricing)
    (hpriced : (parseFloat pricing.price_per_call_eth).ble Frac.zero = false)
    (href : args.paymentId = some pid) :
    (getPaymentByPaymentId st pid = none →
      callApiEndpoint endpoints pricings endpointName args (some uid) (some did) st =
        (CallOutcome.gateBlocked
          ⟨false, some 402, "Invalid payment_id provided", none⟩, st)) ∧
    (∀ payment, getPaymentByPaymentId st pid = some payment →
      payment.user_id ≠ uid →
      callApiEndpoint endpoints pricings endpointName args (some uid) (some did) st =
        (CallOutcome.gateBlocked
          ⟨false, some 402, "Unauthorized: payment_id belongs to another user",
            none⟩, st)) ∧
    (∀ payment, getPaymentByPaymentId st pid = some payment →
      payment.user_id = uid → payment.endpoint_id ≠ eid →
      callApiEndpoint endpoints pricings endpointName args (some uid) (some did) st =
        (CallOutcome.gateBlocked
          ⟨false, some 402, "payment_id is for a different endpoint", none⟩, st)) ∧
    (∀ payment, getPaymentByPaymentId st pid = some payment →
      payment.user_id = uid → payment.endpoint_id = eid →
      payment.status ≠ PaymentStatus.completed →
      callApiEndpoint endpoints pricings endpointName args (some uid) (some did) st =
        (CallOutcome.gateBlocked
          ⟨false, some 402, "Payment status is not completed",
            some ⟨some pid, some payment.status, none, none, none, none⟩⟩, st)) := by
  refine ⟨?_, ?_, ?_, ?_⟩
  · intro hpid
    apply callApi_of_gateBlocked endpoints pricings endpointName args uid did st st
      ep eid _ hep hid
    rw [hpr, href]
    unfold checkPaymentRequired
    simp [hpriced, hpid]
  · intro payment hpid hne
    apply callApi_of_gateBlocked endpoints pricings endpointName args uid did st st
      ep eid _ hep hid
    rw [hpr, href]
    unfold checkPaymentRequired
    simp [hpriced, hpid, hne]
  · intro payment hpid howner hne
    apply callApi_of_gateBlocked endpoints pricings endpointName args uid did st st
      ep eid _ hep hid
    rw [hpr, href]
    unfold checkPaymentRequired
    simp [hpriced, hpid, howner, hne]
  · intro payment hpid howner hendp hne
    apply callApi_of_gateBlocked endpoints pricings endpointName args uid did st st
      ep eid _ hep hid
    rw [hpr, href]
    unfold checkPaymentRequired
    simp [hpriced, hpid, howner, hendp, hne]

set_option maxRecDepth 1000000 in
theorem gate_supplied_reference_checks_witness :
    getPaymentByPaymentId stCompleted003 7 = none ∧
    callApiEndpoint [weatherEndpoint] [("ep1", pricing003)] ("get_weather")
        ⟨some 7, []⟩ (some ("alice")) (some ("dev")) stCompleted003 =
      (CallOutcome.gateBlocked
        ⟨false, some 402, "Invalid payment_id provided", none⟩, stCompleted003) :=
  ⟨by decide,
    (gate_supplied_reference_checks [weatherEndpoint] [("ep1", pricing003)]
      ("get_weather") ⟨some 7, []⟩ ("alice") "dev" stCompleted003 weatherEndpoint
      ("ep1") pricing003 7 (by decide) (by decide) (by decide) (by decide)
      (by decide)).1 (by decide)⟩

/-- C9 amended: a COMPLETED reference owned by the caller for the invoked tool
makes the gate proceed while leaving the store unchanged — the transaction is
never consumed or invalidated — so the same reference admits an unlimited
number of further underlying calls: after any number of such invocations the
store still equals the starting store. -/
theorem completed_reference_unlimited_reuse (endpoints : List APIEndpoint)
    (pricings : List (String × EndpointPricing)) (endpointName : String)
    (args : ToolArgs) (uid did : String) (st : PayState) (ep : APIEndpoint)
    (eid : String) (pricing : EndpointPricing) (pid : Nat)
    (payment : PaymentTransaction)
    (hep : endpoints.find? (fun e => e.name == endpointName) = some ep)
    (hid : ep.id = some eid)
    (hpr : (pricings.find? (fun p => p.1 == eid)).map (fun p => p.2) = some pricing)
    (hpriced : (parseFloat pricing.price_per_call_eth).ble Frac.zero = false)
    (href : args.paymentId = some pid)
    (hpay : getPaymentByPaymentId st pid = some payment)
    (howner : payment.user_id = uid)
    (hendp : payment.endpoint_id = eid)
    (hcomp : payment.status = PaymentStatus.completed)
    (hval : ep.parameters.find?
      (fun p => p.required && !(args.keys.contains p.name)) = none) :
    callApiEndpoint endpoints pricings endpointName args (some uid) (some did) st =
      (CallOutcome.apiCalled { args with paymentId := none }, st) ∧
    ∀ n, (fun s => (callApiEndpoint endpoints pricings endpointName args
      (some uid) (some did) s).2)^[n] st = st := by
  have hgate : checkPaymentRequired (some pricing) eid uid did (some pid) st =
      (none, st, true) := by
    unfold checkPaymentRequired
    simp [hpriced, hpay, howner, hendp, hcomp]
  have hcall : callApiEndpoint endpoints pricings endpointName args (some uid)
      (some did) st = (CallOutcome.apiCalled { args with paymentId := none }, st) := by
    have h2 := callApi_of_gateProceed endpoints pricings endpointName args uid did
      st st ep eid true hep hid (by rw [hpr, href]; exact hgate)
    rw [h2]
    unfold validateAndCall
    simp only [if_pos]
    rw [hval]
  refine ⟨hcall, fun n => Function.iterate_fixed ?_ n⟩
  rw [hcall]

set_option maxRecDepth 1000000 in
theorem completed_reference_unlimited_reuse_witness :
    getPaymentByPaymentId stCompleted003 0 =
      some ⟨0, "alice", "ep1", PLATFORM_WALLET_ADDRESS, "0xdev", ⟨3, 100⟩,
        PaymentStatus.completed, some ("0xhash"), none⟩ ∧
    callApiEndpoint [weatherEndpoint] [("ep1", pricing003)] ("get_weather")
        ⟨some 0, []⟩ (some ("alice")) (some ("dev")) stCompleted003 =
      (CallOutcome.apiCalled ⟨none, []⟩, stCompleted003) :=
  ⟨by decide,
    (completed_reference_unlimited_reuse [weatherEndpoint] [("ep1", pricing003)]
      ("get_weather") ⟨some 0, []⟩ ("alice") "dev" stCompleted003 weatherEndpoint
      ("ep1") pricing003 0
      ⟨0, "alice", "ep1", PLATFORM_WALLET_ADDRESS, "0xdev", ⟨3, 100⟩,
        PaymentStatus.completed, some ("0xhash"), none⟩
      (by decide) (by decide) (by decide) (by decide) (by decide) (by decide)
      (by decide) (by decide) (by decide) (by decide)).1⟩

set_option maxRecDepth 1000000 in
/-- C9 counterexample: the same COMPLETED reference, supplied twice to invoke
the same tool by the same payer with no further approval, lets the underlying
API call execute both times and leaves the store unchanged — a COMPLETED
reference does not allow exactly one additional call per approval cycle. -/
theorem completed_reference_two_calls :
    invokeOnce003.1 = CallOutcome.apiCalled ⟨none, []⟩ ∧
    invokeTwice003.1 = CallOutcome.apiCalled ⟨none, []⟩ ∧
    invokeTwice003.2 = stCompleted003 := by
  decide

theorem getBalance_updatedTxState (st : PayState) (pid : Nat)
    (upd : PaymentUpdate) (u : String) :
    getBalanceByUserId (updatedTxState st pid upd) u = getBalanceByUserId st u := rfl

/-- C4 amended: an approval of a PENDING transaction writes statuses only
along the claimed graph: either nothing (insufficient balance, transaction
stays PENDING), or PROCESSING then COMPLETED, or PROCESSING then FAILED.
(Approvals of transactions that are not PENDING can nevertheless overwrite a
terminal status with FAILED through the error handler: see the
counterexample.) -/
theorem approve_from_pending_follows_graph (userId : String) (pid : Nat)
    (settle : SettleResult) (st : PayState) (payment : PaymentTransaction)
    (hfind : getPaymentByPaymentId st pid = some payment)
    (howner : payment.user_id = userId)
    (hpend : payment.status = PaymentStatus.pending) :
    (executeApprovePayment userId (some pid) settle st).2.2 = [] ∨
    (executeApprovePayment userId (some pid) settle st).2.2 =
      [PaymentStatus.processing, PaymentStatus.completed] ∨
    (executeApprovePayment userId (some pid) settle st).2.2 =
      [PaymentStatus.processing, PaymentStatus.failed] := by
  have hbal2 : getBalanceByUserId (getOrCreateBalance st userId).2 userId =
      some (getOrCreateBalance st userId).1 := getOrCreateBalance_found st userId
  have hpay2 : getPaymentByPaymentId (getOrCreateBalance st userId).2 pid =
      some payment := by
    unfold getPaymentByPaymentId at hfind ⊢
    rw [getOrCreateBalance_payments]
    exact hfind
  unfold executeApprovePayment
  simp only [hfind]
  rw [if_neg (by simp [howner])]
  rw [if_neg (by simp [hpend])]
  cases hcmp : Frac.blt (parseFloat (getOrCreateBalance st userId).1.balance_eth)
      (parseFloat payment.amount_eth) with
  | true =>
    rw [if_pos rfl]
    left
    rfl
  | false =>
    rw [if_neg (by simp)]
    have hded : deductPaymentS (getOrCreateBalance st userId).2 userId
        payment.amount_eth =
        some (setBalance (getOrCreateBalance st userId).2 userId
          ⟨jsSub (parseFloat (getOrCreateBalance st userId).1.balance_eth)
              (parseFloat payment.amount_eth),
            (getOrCreateBalance st userId).1.total_deposited_eth,
            jsAdd (parseFloat (getOrCreateBalance st userId).1.total_spent_eth)
              (parseFloat payment.amount_eth)⟩) := by
      unfold deductPaymentS
      rw [hbal2]
      unfold deductPayment
      simp only
      rw [if_neg (by rw [hcmp]; simp)]
    simp only [hded]
    have hpay3 : getPaymentByPaymentId
        (setBalance (getOrCreateBalance st userId).2 userId
          ⟨jsSub (parseFloat (getOrCreateBalance st userId).1.balance_eth)
              (parseFloat payment.amount_eth),
            (getOrCreateBalance st userId).1.total_deposited_eth,
            jsAdd (parseFloat (getOrCreateBalance st userId).1.total_spent_eth)
              (parseFloat payment.amount_eth)⟩) pid = some payment := by
      rw [getPayment_setBalance]
      exact hpay2
    simp only [updatePaymentTransaction_eq _ _ _ _ hpay3]
    cases settle with
    | ok txHash =>
      simp only [updatePaymentTransaction_eq _ _ _ _
        (getPayment_after_update _ _ _ _ hpay3)]
      right
      left
      trivial
    | fail err =>
      right
      right
      rfl

set_option maxRecDepth 1000000 in
theorem approve_from_pending_follows_graph_witness :
    getPaymentByPaymentId stPending003 0 =
      some ⟨0, "alice", "ep1", PLATFORM_WALLET_ADDRESS, "0xdev", ⟨3, 100⟩,
        PaymentStatus.pending, none, none⟩ ∧
    ((executeApprovePayment ("alice") (some 0)
        (SettleResult.fail ("execution reverted")) stPending003).2.2 = [] ∨
      (executeApprovePayment ("alice") (some 0)
        (SettleResult.fail ("execution reverted")) stPending003).2.2 =
        [PaymentStatus.processing, PaymentStatus.completed] ∨
      (executeApprovePayment ("alice") (some 0)
        (SettleResult.fail ("execution reverted")) stPending003).2.2 =
        [PaymentStatus.processing, PaymentStatus.failed]) :=
  ⟨by decide,
    approve_from_pending_follows_graph ("alice") 0
      (SettleResult.fail ("execution reverted")) stPending003
      ⟨0, "alice", "ep1", PLATFORM_WALLET_ADDRESS, "0xdev", ⟨3, 100⟩,
        PaymentStatus.pending, none, none⟩
      (by decide) (by decide) (by decide)⟩

set_option maxRecDepth 1000000 in
/-- C4 counterexample: approving an already COMPLETED transaction makes the
error handler mark it FAILED: a terminal status changes again, and the
COMPLETED to FAILED edge is not in the claimed transition graph. -/
theorem approve_completed_transitions_to_failed :
    (getPaymentByPaymentId stCompleted003 0).map (fun t => t.status) =
      some PaymentStatus.completed ∧
    (getPaymentByPaymentId approveAgain003.2.1 0).map (fun t => t.status) =
      some PaymentStatus.failed := by
  decide

/-- C3 amended: when the approval of a PENDING transaction debits the ledger
and the on-chain settlement then fails, the ledger is credited back with the
same stored amount string, the transaction is marked FAILED carrying the error
detail, the result reports `refunded: true`, and the final status trace is
PROCESSING then FAILED.  The resulting balance is the float round trip
`(balance - amount) + amount`, which restores the original balance only up to
binary64 rounding (see the counterexample). -/
theorem approve_settlement_failure_refunds (userId : String) (pid : Nat)
    (err : String) (st : PayState) (payment : PaymentTransaction)
    (bal : UserBalance)
    (hfind : getPaymentByPaymentId st pid = some payment)
    (howner : payment.user_id = userId)
    (hpend : payment.status = PaymentStatus.pending)
    (hbal : getBalanceByUserId st userId = some bal)
    (hsuff : Frac.blt (parseFloat bal.balance_eth)
      (parseFloat payment.amount_eth) = false) :
    (executeApprovePayment userId (some pid) (SettleResult.fail err) st).1 =
      ApproveOutcome.settlementFailed pid err true payment.amount_eth ∧
    (getPaymentByPaymentId
        (executeApprovePayment userId (some pid) (SettleResult.fail err) st).2.1
        pid).map (fun t => t.status) = some PaymentStatus.failed ∧
    (getPaymentByPaymentId
        (executeApprovePayment userId (some pid) (SettleResult.fail err) st).2.1
        pid).map (fun t => t.error_message) =
      some (some ("Blockchain transaction failed: " ++ err)) ∧
    balanceEthOf
        (executeApprovePayment userId (some pid) (SettleResult.fail err) st).2.1
        userId =
      jsAdd (parseFloat (jsSub (parseFloat bal.balance_eth)
        (parseFloat payment.amount_eth))) (parseFloat payment.amount_eth) ∧
    (executeApprovePayment userId (some pid) (SettleResult.fail err) st).2.2 =
      [PaymentStatus.processing, PaymentStatus.failed] := by
  have hgoc : getOrCreateBalance st userId = (bal, st) := by
    unfold getOrCreateBalance
    rw [hbal]
  have hded : deductPaymentS st userId payment.amount_eth =
      some (setBalance st userId
        ⟨jsSub (parseFloat bal.balance_eth) (parseFloat payment.amount_eth),
          bal.total_deposited_eth,
          jsAdd (parseFloat bal.total_spent_eth)
            (parseFloat payment.amount_eth)⟩) := by
    unfold deductPaymentS
    rw [hbal]
    unfold deductPayment
    simp only
    rw [if_neg (by rw [hsuff]; simp)]
  have hpay2 : getPaymentByPaymentId
      (setBalance st userId
        ⟨jsSub (parseFloat bal.balance_eth) (parseFloat payment.amount_eth),
          bal.total_deposited_eth,
          jsAdd (parseFloat bal.total_spent_eth)
            (parseFloat payment.amount_eth)⟩) pid = some payment := by
    rw [getPayment_setBalance]
    exact hfind
  have hpay3 := getPayment_after_update _ pid
    ⟨some PaymentStatus.processing, none, none⟩ payment hpay2
  have hbal3 : getBalanceByUserId
      (updatedTxState
        (setBalance st userId
          ⟨jsSub (parseFloat bal.balance_eth) (parseFloat payment.amount_eth),
            bal.total_deposited_eth,
            jsAdd (parseFloat bal.total_spent_eth)
              (parseFloat payment.amount_eth)⟩) pid
        ⟨some PaymentStatus.processing, none, none⟩) userId =
      some ⟨jsSub (parseFloat bal.balance_eth) (parseFloat payment.amount_eth),
        bal.total_deposited_eth,
        jsAdd (parseFloat bal.total_spent_eth)
          (parseFloat payment.amount_eth)⟩ := by
    rw [getBalance_updatedTxState]
    exact getBalance_setBalance_self st userId _ bal hbal
  have hgoc3 : getOrCreateBalance
      (updatedTxState
        (setBalance st userId
          ⟨jsSub (parseFloat bal.balance_eth) (parseFloat payment.amount_eth),
            bal.total_deposited_eth,
            jsAdd (parseFloat bal.total_spent_eth)
              (parseFloat payment.amount_eth)⟩) pid
        ⟨some PaymentStatus.processing, none, none⟩) userId =
      (⟨jsSub (parseFloat bal.balance_eth) (parseFloat payment.amount_eth),
          bal.total_deposited_eth,
          jsAdd (parseFloat bal.total_spent_eth)
            (parseFloat payment.amount_eth)⟩,
        updatedTxState
          (setBalance st userId
            ⟨jsSub (parseFloat bal.balance_eth) (parseFloat payment.amount_eth),
              bal.total_deposited_eth,
              jsAdd (parseFloat bal.total_spent_eth)
                (parseFloat payment.amount_eth)⟩) pid
          ⟨some PaymentStatus.processing, none, none⟩) := by
    unfold getOrCreateBalance
    rw [hbal3]
  have hst4 : addDepositS
      (updatedTxState
        (setBalance st userId
          ⟨jsSub (parseFloat bal.balance_eth) (parseFloat payment.amount_eth),
            bal.total_deposited_eth,
            jsAdd (parseFloat bal.total_spent_eth)
              (parseFloat payment.amount_eth)⟩) pid
        ⟨some PaymentStatus.processing, none, none⟩) userId payment.amount_eth =
      setBalance
        (updatedTxState
          (setBalance st userId
            ⟨jsSub (parseFloat bal.balance_eth) (parseFloat payment.amount_eth),
              bal.total_deposited_eth,
              jsAdd (parseFloat bal.total_spent_eth)
                (parseFloat payment.amount_eth)⟩) pid
          ⟨some PaymentStatus.processing, none, none⟩) userId
        (addDeposit
          ⟨jsSub (parseFloat bal.balance_eth) (parseFloat payment.amount_eth),
            bal.total_deposited_eth,
            jsAdd (parseFloat bal.total_spent_eth)
              (parseFloat payment.amount_eth)⟩ payment.amount_eth) := by
    unfold addDepositS
    rw [hgoc3]
  have hpay4 : getPaymentByPaymentId
      (setBalance
        (updatedTxState
          (setBalance st userId
            ⟨jsSub (parseFloat bal.balance_eth) (parseFloat payment.amount_eth),
              bal.total_deposited_eth,
              jsAdd (parseFloat bal.total_spent_eth)
                (parseFloat payment.amount_eth)⟩) pid
          ⟨some PaymentStatus.processing, none, none⟩) userId
        (addDeposit
          ⟨jsSub (parseFloat bal.balance_eth) (parseFloat payment.amount_eth),
            bal.total_deposited_eth,
            jsAdd (parseFloat bal.total_spent_eth)
              (parseFloat payment.amount_eth)⟩ payment.amount_eth)) pid =
      some (applyPaymentUpdate ⟨some PaymentStatus.processing, none, none⟩
        payment) := by
    rw [getPayment_setBalance]
    exact hpay3
  have htry : tryMarkPaymentFailed
      (setBalance
        (updatedTxState
          (setBalance st userId
            ⟨jsSub (parseFloat bal.balance_eth) (parseFloat payment.amount_eth),
              bal.total_deposited_eth,
              jsAdd (parseFloat bal.total_spent_eth)
                (parseFloat payment.amount_eth)⟩) pid
          ⟨some PaymentStatus.processing, none, none⟩) userId
        (addDeposit
          ⟨jsSub (parseFloat bal.balance_eth) (parseFloat payment.amount_eth),
            bal.total_deposited_eth,
            jsAdd (parseFloat bal.total_spent_eth)
              (parseFloat payment.amount_eth)⟩ payment.amount_eth)) pid
      ("Blockchain transaction failed: " ++ err) =
      updatedTxState
        (setBalance
          (updatedTxState
            (setBalance st userId
              ⟨jsSub (parseFloat bal.balance_eth) (parseFloat payment.amount_eth),
                bal.total_deposited_eth,
                jsAdd (parseFloat bal.total_spent_eth)
                  (parseFloat payment.amount_eth)⟩) pid
            ⟨some PaymentStatus.processing, none, none⟩) userId
          (addDeposit
            ⟨jsSub (parseFloat bal.balance_eth) (parseFloat payment.amount_eth),
              bal.total_deposited_eth,
              jsAdd (parseFloat bal.total_spent_eth)
                (parseFloat payment.amount_eth)⟩ payment.amount_eth)) pid
        ⟨some PaymentStatus.failed, none,
          some ("Blockchain transaction failed: " ++ err)⟩ := by
    unfold tryMarkPaymentFailed markPaymentFailed
    rw [updatePaymentTransaction_eq _ _ _ _ hpay4]
  have hexec : executeApprovePayment userId (some pid) (SettleResult.fail err) st =
      (ApproveOutcome.settlementFailed pid err true payment.amount_eth,
        updatedTxState
          (setBalance
            (updatedTxState
              (setBalance st userId
                ⟨jsSub (parseFloat bal.balance_eth)
                    (parseFloat payment.amount_eth),
                  bal.total_deposited_eth,
                  jsAdd (parseFloat bal.total_spent_eth)
                    (parseFloat payment.amount_eth)⟩) pid
              ⟨some PaymentStatus.processing, none, none⟩) userId
            (addDeposit
              ⟨jsSub (parseFloat bal.balance_eth)
                  (parseFloat payment.amount_eth),
                bal.total_deposited_eth,
                jsAdd (parseFloat bal.total_spent_eth)
                  (parseFloat payment.amount_eth)⟩ payment.amount_eth)) pid
          ⟨some PaymentStatus.failed, none,
            some ("Blockchain transaction failed: " ++ err)⟩,
        [PaymentStatus.processing, PaymentStatus.failed]) := by
    unfold executeApprovePayment
    simp only [hfind]
    rw [if_neg (by simp [howner])]
    rw [if_neg (by simp [hpend])]
    simp only [hgoc]
    rw [if_neg (by rw [hsuff]; simp)]
    simp only [hded]
    simp only [updatePaymentTransaction_eq _ _ _ _ hpay2]
    simp only [hst4, htry]
  refine ⟨by rw [hexec], ?_, ?_, ?_, by rw [hexec]⟩
  · rw [hexec]
    simp only
    rw [getPayment_after_update _ _ _ _ hpay4]
    rfl
  · rw [hexec]
    simp only
    rw [getPayment_after_update _ _ _ _ hpay4]
    rfl
  · rw [hexec]
    unfold balanceEthOf
    rw [getBalance_updatedTxState]
    rw [getBalance_setBalance_self _ _ _ _ hbal3]
    rfl

set_option maxRecDepth 1000000 in
theorem approve_settlement_failure_refunds_witness :
    (getPaymentByPaymentId stPending003 0 =
        some ⟨0, "alice", "ep1", PLATFORM_WALLET_ADDRESS, "0xdev", ⟨3, 100⟩,
          PaymentStatus.pending, none, none⟩ ∧
      getBalanceByUserId stPending003 ("alice") =
        some (addDeposit zeroUserBalance ⟨3, 10⟩) ∧
      Frac.blt (parseFloat (addDeposit zeroUserBalance ⟨3, 10⟩).balance_eth)
        (parseFloat (Frac.mk 3 100)) = false) ∧
    (executeApprovePayment ("alice") (some 0)
        (SettleResult.fail ("execution reverted")) stPending003).1 =
      ApproveOutcome.settlementFailed 0 ("execution reverted") true ⟨3, 100⟩ :=
  ⟨⟨by decide, by decide, by decide⟩,
    (approve_settlement_failure_refunds ("alice") 0 ("execution reverted")
      stPending003
      ⟨0, "alice", "ep1", PLATFORM_WALLET_ADDRESS, "0xdev", ⟨3, 100⟩,
        PaymentStatus.pending, none, none⟩
      (addDeposit zeroUserBalance ⟨3, 10⟩)
      (by decide) (by decide) (by decide) (by decide) (by decide)).1⟩

set_option maxRecDepth 1000000 in
/-- C3 counterexample: payer balance `0.3`, charge `0.03`, settlement fails
after the debit; the refund credits the same amount string, yet the resulting
balance is `(0.3 - 0.03) + 0.03` in binary64, which is `0.30000000000000004`,
not the pre-approval `0.3` — the payer's balance after the failed approve does
not equal the balance before it. -/
theorem approve_refund_balance_not_restored :
    (balanceEthOf approveFail003.2.1 ("alice")).toRat ≠
      (balanceEthOf stPending003 ("alice")).toRat :=
  toRat_ne_of_equiv_false _ _ (by decide) (by decide) (by decide)
